import Mathlib

/-!
Verification of the giab-truvari-pipe glue scripts against their
natural-language specification.  The three Python scripts
(`stratified_performance_metrics.py`, `size_bin_plots.py`,
`run_pipeline.py`) are shallowly embedded below: files become explicit
data, external library calls become parameters or world fields, and
`sys.exit` / uncaught exceptions become an explicit exit-code result.
-/

namespace GiabTruvari

/-! ## Metrics aggregator (`stratified_performance_metrics.py`) -/

/-- A pandas dataframe as produced by `pd.read_csv`: a list of column
labels together with the data rows. -/
structure Df where
  cols : List String
  rows : List (List Int)
deriving DecidableEq

/-- `pd.read_csv(path, sep='\t')` with the default `header='infer'`
(no `names`, no `header=None`): the FIRST row of the file is consumed
as the column labels, and only the remaining rows become data rows.
The raw file is a list of tab-separated integer rows. -/
def read_csv_tab (file : List (List Int)) : Df :=
  ⟨(file.headD []).map (fun v => toString v), file.tail⟩

/-- `df.columns = names`: pandas raises a `ValueError` (length mismatch)
unless the assigned name list has exactly as many entries as the frame
has columns; on success the labels are replaced positionally. -/
def set_columns (names : List String) (df : Df) : Except String Df :=
  if names.length = df.cols.length then Except.ok ⟨names, df.rows⟩
  else Except.error "Length mismatch: Expected axis has a different number of elements"

/-- The seven positional column names assigned by the aggregator. -/
def metric_names : List String :=
  ["chrom", "start", "end", "tpbase", "tp", "fn", "fp"]

/-- Label-based column selection `df[name]`: the values of the column
whose label is `name` (empty if no such label). -/
def colOfName (df : Df) (name : String) : List Int :=
  match df.cols.findIdx? (fun c => c == name) with
  | none => []
  | some i => df.rows.map (fun r => r.getD i 0)

/-- `df[name].sum()`. -/
def colSum (df : Df) (name : String) : Int :=
  (colOfName df name).sum

/-- The whole aggregator script, parameterised by the external formula
`truvari.performance_metrics` (`pm`).  It reads the file, assigns the
seven column names, sums the four count columns and returns the value
printed, namely `pm` applied to the sums in the order
(tpbase, tp, fn, fp).  An error means the script dies with an uncaught
exception before printing anything. -/
def stratified_script {α : Type} (pm : Int → Int → Int → Int → α)
    (file : List (List Int)) : Except String α :=
  let df := read_csv_tab file
  match set_columns metric_names df with
  | Except.error e => Except.error e
  | Except.ok df2 =>
      Except.ok (pm (colSum df2 "tpbase") (colSum df2 "tp")
                    (colSum df2 "fn") (colSum df2 "fp"))

/-- Column-wise sum at index `i` over a list of rows. -/
def sumAt (rows : List (List Int)) (i : Nat) : Int :=
  (rows.map (fun r => r.getD i 0)).sum

/-- Modelled from the spec: the sums the spec asks for — "the four sums
it computes (tpbase, tp, fn, fp) equal the column-wise sums taken over
all data rows of the file", the file being headerless so that every row
of the file is a data row.  Columns 3..6 are tpbase, tp, fn, fp. -/
def spec_all_row_sums (file : List (List Int)) : Int × Int × Int × Int :=
  (sumAt file 3, sumAt file 4, sumAt file 5, sumAt file 6)

/-- A pass-through instantiation of the external formula that just
records its four arguments. -/
def prod4 : Int → Int → Int → Int → Int × Int × Int × Int :=
  fun a b c d => (a, b, c, d)

/-- Concrete two-row input file for the aggregator: every row is a data
row (the file has no header line). -/
def c1_file : List (List Int) :=
  [[0, 0, 0, 10, 8, 2, 1], [0, 0, 0, 1, 1, 1, 1]]

/-! ## Plot renderer (`size_bin_plots.py`) -/

/-- One row of the serialized benchmarking dataframe; only the columns
the plotting script touches are modelled. -/
structure PlotRow where
  state : String
  svtype : String
  szbin : String
deriving DecidableEq

/-- The four outcome-state labels the plot loop enumerates. -/
def plotStates : List String := ["tpbase", "tp", "fp", "fn"]

/-- `data[data["state"] == state]`: the rows drawn in the panel of a
given state. -/
def statePartition (data : List PlotRow) (s : String) : List PlotRow :=
  data.filter (fun r => r.state == s)

/-- Number of panels of the four state panels that a given row lands in. -/
def panelCount (data : List PlotRow) (r : PlotRow) : Nat :=
  plotStates.countP (fun s => decide (r ∈ statePartition data s))

/-! ## Pipeline driver (`run_pipeline.py`)

The driver is modelled as explicit state passing over a `World` that
fixes everything the environment decides (the child process's streams
and exit status, whether the fixed-path input files exist and what they
hold, whether the output write succeeds).  Each step returns the list
of observable events it performs together with an exit outcome:
`some c` models `sys.exit(c)` (or an uncaught exception terminating the
interpreter with a non-zero status), `none` models falling through. -/

/-- Observable actions of the driver. -/
inductive Event where
  | launch : Event
  | fwdOut : String → Event
  | fwdErr : String → Event
  | msg : String → Event
  | readCsv : Event
  | readTemplate : Event
  | writeOut : String → Event
deriving DecidableEq

/-- A token of the README template: literal text or a named format
placeholder.  The template file is embedded pre-tokenised. -/
inductive Tok where
  | lit : String → Tok
  | ph : String → Tok
deriving DecidableEq

/-- The parsed combined_summary_report.csv contents. -/
abbrev Csv := List (List String)

/-- Everything the run of the driver depends on.  `childEmission` lists
the child process's lines in real-time emission order, tagged `true`
for stdout and `false` for stderr; the OS pipes separate the two
streams before the driver reads them. -/
structure World where
  childEmission : List (Bool × String)
  childExit : Int
  csvData : Option Csv
  templateToks : Option (List Tok)
  today : String
  snakemakeVersion : String
  pandasVersion : String
  tabulateVersion : String
  writeOk : Bool

/-- The child's stdout pipe contents: its stdout lines in emission order. -/
def stdoutLines (w : World) : List String :=
  w.childEmission.filterMap (fun p => if p.fst then some p.snd else none)

/-- The child's stderr pipe contents: its stderr lines in emission order. -/
def stderrLines (w : World) : List String :=
  w.childEmission.filterMap (fun p => if p.fst then none else some p.snd)

/-- `run_snakemake_pipeline`: launch the child once, drain its stdout
line by line, then drain its stderr line by line, wait, and exit with
status 1 when the child's exit status is non-zero. -/
def run_snakemake_pipeline (w : World) : List Event × Option Nat :=
  let evs := Event.msg "Running the Snakemake pipeline..." :: Event.launch ::
    ((stdoutLines w).map Event.fwdOut ++ (stderrLines w).map Event.fwdErr)
  if w.childExit = 0 then (evs, none)
  else (evs ++ [Event.msg "Snakemake pipeline failed."], some 1)

/-- `generate_summary_table`: require the fixed-path CSV to exist, read
it and return the Markdown table produced by the external `tabulate`
call (the parameter `tab`). -/
def generate_summary_table (tab : Csv → String) (w : World) :
    List Event × Except Nat String :=
  match w.csvData with
  | none =>
      ([Event.msg "Error: summary_reports/combined_summary_report.csv not found."],
       Except.error 1)
  | some csv =>
      ([Event.msg "Loading the combined_summary_report.csv file...",
        Event.readCsv,
        Event.msg "Converting the combined_summary_report DataFrame to a Markdown table..."],
       Except.ok (tab csv))

/-- The keyword arguments of the `template_text.format(...)` call, as
an association list in source order. -/
def substPairs (w : World) (summary_table : String) : List (String × String) :=
  [("pipeline_name", "Truvari Analysis"),
   ("date_of_run", w.today),
   ("snakemake_version", w.snakemakeVersion),
   ("pipeline_version", "1.2.0"),
   ("truvari_version", "v4.2.2-dev"),
   ("pandas_version", w.pandasVersion),
   ("tabulate_version", w.tabulateVersion),
   ("summary_table", summary_table)]

/-- The driver's fixed substitution key set. -/
def substKeys : List String :=
  ["pipeline_name", "date_of_run", "snakemake_version", "pipeline_version",
   "truvari_version", "pandas_version", "tabulate_version", "summary_table"]

/-- The placeholder names of a template, in order of occurrence. -/
def placeholders (toks : List Tok) : List String :=
  toks.filterMap (fun t => match t with | Tok.ph n => some n | _ => none)

/-- `str.format` over the tokenised template: substitute each
placeholder from the keyword list, raising a `KeyError` (carrying the
offending name) at the first placeholder missing from it. -/
def renderTemplate : List Tok → List (String × String) → Except String String
  | [], _ => Except.ok ""
  | Tok.lit s :: ts, σ =>
      match renderTemplate ts σ with
      | Except.ok r => Except.ok (s ++ r)
      | Except.error e => Except.error e
  | Tok.ph n :: ts, σ =>
      match σ.lookup n with
      | none => Except.error n
      | some v =>
          match renderTemplate ts σ with
          | Except.ok r => Except.ok (v ++ r)
          | Except.error e => Except.error e

/-- The placeholders of a template that the keyword list does not
cover, i.e. the markers `format` would leave unsubstituted (in fact it
raises on them). -/
def unsubstituted (toks : List Tok) (σ : List (String × String)) : List String :=
  (placeholders toks).filter (fun n => (σ.lookup n).isNone)

/-- `generate_readme`: require the fixed-path template to exist, read
it, substitute the fixed keyword set into it (an uncaught `KeyError`
from `format` kills the interpreter with status 1 after printing a
traceback), and write the result to the fixed output path; a failing
write is caught, reported and turned into `sys.exit(1)`. -/
def generate_readme (w : World) (summary_table : String) :
    List Event × Option Nat :=
  match w.templateToks with
  | none => ([Event.msg "Error: README-eval-template.md not found."], some 1)
  | some toks =>
      let evs := [Event.msg "Filling in the template README.md with pipeline and run information...",
                  Event.readTemplate]
      match renderTemplate toks (substPairs w summary_table) with
      | Except.error n => (evs ++ [Event.msg ("Traceback KeyError: " ++ n)], some 1)
      | Except.ok filled =>
          let evs2 := evs ++ [Event.msg "Writing the filled README.md file..."]
          if w.writeOk then (evs2 ++ [Event.writeOut filled], none)
          else (evs2 ++ [Event.msg "Error writing giab-evaluation-README.md"], some 1)

/-- `main`: optionally run the pipeline, then build the summary table,
then render the README; a `sys.exit` in any step aborts the rest. -/
def main_run (tab : Csv → String) (w : World) (skipPipeline : Bool) :
    List Event × Option Nat :=
  let step1 := if skipPipeline then ([], none) else run_snakemake_pipeline w
  match step1 with
  | (e1, some c) => (e1, some c)
  | (e1, none) =>
      match generate_summary_table tab w with
      | (e2, Except.error c) => (e1 ++ e2, some c)
      | (e2, Except.ok table) =>
          match generate_readme w table with
          | (e3, some c) => (e1 ++ e2 ++ e3, some c)
          | (e3, none) => (e1 ++ e2 ++ e3 ++ [Event.msg "Finished!"], none)

/-- The stream-forwarding events of a trace. -/
def forwarded (t : List Event) : List Event :=
  t.filter (fun e => match e with
    | Event.fwdOut _ => true
    | Event.fwdErr _ => true
    | _ => false)

/-- Phase number of the step-marker events: the child launch, the CSV
read, the template read and the output write, in the order the three
steps are supposed to run. -/
def phase : Event → Option Nat
  | Event.launch => some 0
  | Event.readCsv => some 1
  | Event.readTemplate => some 2
  | Event.writeOut _ => some 3
  | _ => none

/-- The sequence of step-marker phases of a trace. -/
def phases (t : List Event) : List Nat :=
  t.filterMap phase

/-! ### Concrete instances used to exercise the theorems -/

/-- A concrete stand-in for the external `tabulate` call. -/
def tab0 : Csv → String := fun _ => "| a |"

/-- A concrete parsed summary CSV. -/
def csv0 : Csv := [["precision", "recall"], ["0.9", "0.8"]]

/-- A concrete interleaved child-process emission. -/
def emission0 : List (Bool × String) :=
  [(true, "building DAG"), (false, "warn: x"), (true, "done")]

/-- A template whose placeholder set is exactly the driver's key set. -/
def toks_full : List Tok :=
  [Tok.lit "# ", Tok.ph "pipeline_name", Tok.lit " run on ", Tok.ph "date_of_run",
   Tok.ph "snakemake_version", Tok.ph "pipeline_version", Tok.ph "truvari_version",
   Tok.ph "pandas_version", Tok.ph "tabulate_version", Tok.lit " results: ",
   Tok.ph "summary_table", Tok.lit " end"]

/-- A template with a placeholder outside the driver's key set. -/
def toks_bogus : List Tok := [Tok.lit "Hello ", Tok.ph "bogus"]

/-- A world in which every step succeeds. -/
def w_render : World :=
  ⟨emission0, 0, some csv0, some toks_full, "2023-04-26", "7.32.4", "2.0.0", "0.9.2", true⟩

/-- A world whose template holds a placeholder outside the key set. -/
def w_badPh : World :=
  ⟨emission0, 0, some csv0, some toks_bogus, "2023-04-26", "7.32.4", "2.0.0", "0.9.2", true⟩

/-- A world in which writing the output file fails. -/
def w_noWrite : World :=
  ⟨emission0, 0, some csv0, some toks_full, "2023-04-26", "7.32.4", "2.0.0", "0.9.2", false⟩

/-- A world in which the combined summary CSV is absent. -/
def w_noCsv : World :=
  ⟨emission0, 0, none, some toks_full, "2023-04-26", "7.32.4", "2.0.0", "0.9.2", true⟩

/-- A world in which the README template is absent. -/
def w_noTemplate : World :=
  ⟨emission0, 0, some csv0, none, "2023-04-26", "7.32.4", "2.0.0", "0.9.2", true⟩

/-- A world in which the child workflow process exits non-zero. -/
def w_childFail : World :=
  ⟨emission0, 1, some csv0, some toks_full, "2023-04-26", "7.32.4", "2.0.0", "0.9.2", true⟩

/-- A seven-column input for the aggregator with two data rows. -/
def file6 : List (List Int) := [[9, 9, 9, 9, 9, 9, 9], [0, 0, 0, 5, 6, 7, 8]]

/-! ## Helper lemmas -/

theorem placeholders_nil : placeholders [] = [] := rfl

theorem placeholders_cons_lit (s : String) (ts : List Tok) :
    placeholders (Tok.lit s :: ts) = placeholders ts := rfl

theorem placeholders_cons_ph (n : String) (ts : List Tok) :
    placeholders (Tok.ph n :: ts) = n :: placeholders ts := rfl

theorem lookup_isSome_iff (l : List (String × String)) (n : String) :
    (l.lookup n).isSome ↔ n ∈ l.map Prod.fst := by
  induction l with
  | nil => simp [List.lookup]
  | cons p t ih =>
      rcases p with ⟨a, b⟩
      by_cases h : n = a
      · subst h; simp [List.lookup]
      · have hb : (n == a) = false := beq_eq_false_iff_ne.mpr h
        simp [List.lookup, hb, ih, h]

theorem substPairs_keys (w : World) (table : String) :
    (substPairs w table).map Prod.fst = substKeys := rfl

theorem lookup_summary_table (w : World) (table : String) :
    (substPairs w table).lookup "summary_table" = some table := rfl

theorem renderTemplate_ok_of_covered (toks : List Tok) (σ : List (String × String))
    (h : ∀ n ∈ placeholders toks, (σ.lookup n).isSome) :
    ∃ r, renderTemplate toks σ = Except.ok r := by
  induction toks with
  | nil => exact ⟨"", rfl⟩
  | cons t ts ih =>
      cases t with
      | lit s =>
          rcases ih (fun n hn => h n (by simpa [placeholders_cons_lit] using hn)) with ⟨r, hr⟩
          exact ⟨s ++ r, by simp [renderTemplate, hr]⟩
      | ph n =>
          have hs : (σ.lookup n).isSome := h n (by simp [placeholders_cons_ph])
          rcases Option.isSome_iff_exists.mp hs with ⟨v, hv⟩
          rcases ih (fun m hm => h m (by simp [placeholders_cons_ph, hm])) with ⟨r, hr⟩
          exact ⟨v ++ r, by simp [renderTemplate, hv, hr]⟩

theorem renderTemplate_error_of_missing (toks : List Tok) (σ : List (String × String))
    (n : String) (hn : n ∈ placeholders toks) (hmiss : σ.lookup n = none) :
    ∃ e, renderTemplate toks σ = Except.error e ∧ σ.lookup e = none := by
  induction toks with
  | nil => simp [placeholders_nil] at hn
  | cons t ts ih =>
      cases t with
      | lit s =>
          have hn2 : n ∈ placeholders ts := by simpa [placeholders_cons_lit] using hn
          rcases ih hn2 with ⟨e, he, hme⟩
          exact ⟨e, by simp [renderTemplate, he], hme⟩
      | ph m =>
          rcases hl : σ.lookup m with _ | v
          · exact ⟨m, by simp [renderTemplate, hl], hl⟩
          · have hn2 : n ∈ placeholders ts := by
              rw [placeholders_cons_ph, List.mem_cons] at hn
              rcases hn with h1 | h2
              · subst h1; rw [hl] at hmiss; cases hmiss
              · exact h2
            rcases ih hn2 with ⟨e, he, hme⟩
            exact ⟨e, by simp [renderTemplate, hl, he], hme⟩

theorem renderTemplate_append_ok (a b : List Tok) (σ : List (String × String)) (s : String)
    (h : renderTemplate (a ++ b) σ = Except.ok s) :
    ∃ sa sb, renderTemplate a σ = Except.ok sa ∧ renderTemplate b σ = Except.ok sb
      ∧ s = sa ++ sb := by
  induction a generalizing s with
  | nil => exact ⟨"", s, rfl, by simpa using h, by simp⟩
  | cons t ts ih =>
      cases t with
      | lit u =>
          simp only [List.cons_append, renderTemplate, List.append_eq] at h
          rcases hr : renderTemplate (ts ++ b) σ with e | r
          · rw [hr] at h; cases h
          · rw [hr] at h
            rcases ih r hr with ⟨sa, sb, h1, h2, h3⟩
            refine ⟨u ++ sa, sb, ?_, h2, ?_⟩
            · simp [renderTemplate, h1]
            · injection h with h4
              subst h3
              simp [← h4, String.append_assoc]
      | ph m =>
          simp only [List.cons_append, renderTemplate, List.append_eq] at h
          rcases hl : σ.lookup m with _ | v
          · rw [hl] at h; cases h
          · rw [hl] at h
            rcases hr : renderTemplate (ts ++ b) σ with e | r
            · rw [hr] at h; cases h
            · rw [hr] at h
              rcases ih r hr with ⟨sa, sb, h1, h2, h3⟩
              refine ⟨v ++ sa, sb, ?_, h2, ?_⟩
              · simp [renderTemplate, hl, h1]
              · injection h with h4
                subst h3
                simp [← h4, String.append_assoc]

theorem filterMap_phase_fwdOut (l : List String) :
    List.filterMap (phase ∘ Event.fwdOut) l = [] := by
  simp
  intro a _
  rfl

theorem filterMap_phase_fwdErr (l : List String) :
    List.filterMap (phase ∘ Event.fwdErr) l = [] := by
  simp
  intro a _
  rfl

theorem count_launch_map_fwdOut (l : List String) :
    (l.map Event.fwdOut).count Event.launch = 0 := by
  rw [List.count_eq_zero]
  simp

theorem count_launch_map_fwdErr (l : List String) :
    (l.map Event.fwdErr).count Event.launch = 0 := by
  rw [List.count_eq_zero]
  simp

/-! ## Claim theorems -/

/-- Claim C1 (code bug): on a headerless two-row input file the
aggregator script returns the column sums of the SECOND row only —
`pd.read_csv` is called without `header=None`, so the first data row of
the file is consumed as column labels — whereas the spec (and the
script's own comment that the input has no header) demands the sums
over all rows, here (11, 9, 3, 2). -/
theorem aggregator_first_row_lost :
    stratified_script prod4 c1_file = Except.ok (1, 1, 1, 1)
    ∧ spec_all_row_sums c1_file = (11, 9, 3, 2)
    ∧ stratified_script prod4 c1_file ≠ Except.ok (spec_all_row_sums c1_file) := by
  refine ⟨rfl, rfl, ?_⟩
  intro hc
  have hc2 : (Except.ok (1, 1, 1, 1) : Except String (Int × Int × Int × Int)) =
      Except.ok (11, 9, 3, 2) := hc
  injection hc2 with h3
  exact absurd h3 (by decide)

/-- Claim C2: when the template holds a placeholder outside the fixed
substitution key set, `generate_readme` dies with a reported error
(uncaught `KeyError` traceback) and a non-zero exit; likewise when the
output-file write fails the error is reported and the exit is
non-zero. -/
theorem generate_readme_failure_modes (w : World) (table : String) (toks : List Tok)
    (htm : w.templateToks = some toks) :
    (∀ n, n ∈ placeholders toks → n ∉ substKeys →
       (generate_readme w table).snd = some 1
       ∧ ∃ e, Event.msg ("Traceback KeyError: " ++ e) ∈ (generate_readme w table).fst)
    ∧ (w.writeOk = false → (∀ n ∈ placeholders toks, n ∈ substKeys) →
       (generate_readme w table).snd = some 1
       ∧ Event.msg "Error writing giab-evaluation-README.md" ∈ (generate_readme w table).fst) := by
  constructor
  · intro n hn hout
    have hmiss : (substPairs w table).lookup n = none := by
      rcases hl : (substPairs w table).lookup n with _ | v
      · rfl
      · exfalso
        apply hout
        rw [← substPairs_keys w table]
        exact (lookup_isSome_iff _ _).mp (by simp [hl])
    rcases renderTemplate_error_of_missing toks _ n hn hmiss with ⟨e, he, _⟩
    constructor
    · simp [generate_readme, htm, he]
    · exact ⟨e, by simp [generate_readme, htm, he]⟩
  · intro hw hcov
    have hcov2 : ∀ n ∈ placeholders toks, ((substPairs w table).lookup n).isSome := by
      intro n hn
      rw [lookup_isSome_iff, substPairs_keys]
      exact hcov n hn
    rcases renderTemplate_ok_of_covered toks _ hcov2 with ⟨r, hr⟩
    constructor
    · simp [generate_readme, htm, hr, hw]
    · simp [generate_readme, htm, hr, hw]

/-- Witness for C2: a template with the foreign placeholder `bogus`
aborts with exit 1 and a KeyError report, and a failing write aborts
with exit 1 and a write-error report. -/
theorem generate_readme_failure_modes_w :
    ((generate_readme w_badPh "T").snd = some 1
      ∧ ∃ e, Event.msg ("Traceback KeyError: " ++ e) ∈ (generate_readme w_badPh "T").fst)
    ∧ ((generate_readme w_noWrite "T").snd = some 1
      ∧ Event.msg "Error writing giab-evaluation-README.md" ∈ (generate_readme w_noWrite "T").fst) :=
  ⟨(generate_readme_failure_modes w_badPh "T" toks_bogus rfl).1 "bogus" (by decide) (by decide),
   (generate_readme_failure_modes w_noWrite "T" toks_full rfl).2 rfl (by decide)⟩

/-- Claim C3: if the fixed-path CSV report is absent the driver exits
with status 1 and its trace holds no template read and no output-file
write — `generate_readme` is never reached. -/
theorem driver_missing_csv (tab : Csv → String) (w : World) (skip : Bool)
    (h : w.csvData = none) :
    (main_run tab w skip).snd = some 1
    ∧ Event.readTemplate ∉ (main_run tab w skip).fst
    ∧ ∀ s, Event.writeOut s ∉ (main_run tab w skip).fst := by
  cases skip with
  | true => simp [main_run, generate_summary_table, h]
  | false =>
      by_cases hc : w.childExit = 0
      · simp [main_run, run_snakemake_pipeline, hc, generate_summary_table, h]
      · simp [main_run, run_snakemake_pipeline, hc, generate_summary_table, h]

/-- Witness for C3: with the CSV absent the run exits 1 without touching
the template or the output file. -/
theorem driver_missing_csv_w :
    (main_run tab0 w_noCsv true).snd = some 1
    ∧ Event.readTemplate ∉ (main_run tab0 w_noCsv true).fst
    ∧ ∀ s, Event.writeOut s ∉ (main_run tab0 w_noCsv true).fst :=
  driver_missing_csv tab0 w_noCsv true rfl

/-- Claim C4: a full run launches the child exactly once; when the child
exits non-zero the driver reports the failure and terminates with exit
status 1 before any later-step event (CSV read, template read, output
write); and the step-marker events of any trace occur in the strict
step order (launch, CSV read, template read, output write). -/
theorem driver_single_launch_sequence (tab : Csv → String) (w : World) :
    (main_run tab w false).fst.count Event.launch = 1
    ∧ (w.childExit ≠ 0 →
        (main_run tab w false).snd = some 1
        ∧ Event.msg "Snakemake pipeline failed." ∈ (main_run tab w false).fst
        ∧ Event.readCsv ∉ (main_run tab w false).fst
        ∧ Event.readTemplate ∉ (main_run tab w false).fst
        ∧ ∀ s, Event.writeOut s ∉ (main_run tab w false).fst)
    ∧ List.Sorted (fun a b => a ≤ b) (phases (main_run tab w false).fst) := by
  by_cases hc : w.childExit = 0
  · rcases hcsv : w.csvData with _ | csv
    · simp [main_run, run_snakemake_pipeline, hc, generate_summary_table, hcsv,
            phases, phase, List.filterMap_map, List.count_append, List.count_cons,
            filterMap_phase_fwdOut, filterMap_phase_fwdErr,
            count_launch_map_fwdOut, count_launch_map_fwdErr]
    · rcases htm : w.templateToks with _ | toks
      · simp [main_run, run_snakemake_pipeline, hc, generate_summary_table, hcsv,
              generate_readme, htm,
              phases, phase, List.filterMap_map, List.count_append, List.count_cons,
              filterMap_phase_fwdOut, filterMap_phase_fwdErr,
              count_launch_map_fwdOut, count_launch_map_fwdErr]
      · rcases hr : renderTemplate toks (substPairs w (tab csv)) with e | filled
        · simp [main_run, run_snakemake_pipeline, hc, generate_summary_table, hcsv,
                generate_readme, htm, hr,
                phases, phase, List.filterMap_map, List.count_append, List.count_cons,
                filterMap_phase_fwdOut, filterMap_phase_fwdErr,
                count_launch_map_fwdOut, count_launch_map_fwdErr]
        · by_cases hw : w.writeOk
          · simp [main_run, run_snakemake_pipeline, hc, generate_summary_table, hcsv,
                  generate_readme, htm, hr, hw,
                  phases, phase, List.filterMap_map, List.count_append, List.count_cons,
                  filterMap_phase_fwdOut, filterMap_phase_fwdErr,
                  count_launch_map_fwdOut, count_launch_map_fwdErr]
          · simp [main_run, run_snakemake_pipeline, hc, generate_summary_table, hcsv,
                  generate_readme, htm, hr, hw,
                  phases, phase, List.filterMap_map, List.count_append, List.count_cons,
                  filterMap_phase_fwdOut, filterMap_phase_fwdErr,
                  count_launch_map_fwdOut, count_launch_map_fwdErr]
  · simp [main_run, run_snakemake_pipeline, hc,
          phases, phase, List.filterMap_map, List.count_append, List.count_cons,
          filterMap_phase_fwdOut, filterMap_phase_fwdErr,
          count_launch_map_fwdOut, count_launch_map_fwdErr]

/-- Witness for C4: with a child exit status of 1 the run launches the
child once, reports the failure, exits 1 and performs no later-step
event. -/
theorem driver_single_launch_sequence_w :
    (main_run tab0 w_childFail false).fst.count Event.launch = 1
    ∧ ((main_run tab0 w_childFail false).snd = some 1
        ∧ Event.msg "Snakemake pipeline failed." ∈ (main_run tab0 w_childFail false).fst
        ∧ Event.readCsv ∉ (main_run tab0 w_childFail false).fst
        ∧ Event.readTemplate ∉ (main_run tab0 w_childFail false).fst
        ∧ ∀ s, Event.writeOut s ∉ (main_run tab0 w_childFail false).fst)
    ∧ List.Sorted (fun a b => a ≤ b) (phases (main_run tab0 w_childFail false).fst) :=
  ⟨(driver_single_launch_sequence tab0 w_childFail).1,
   (driver_single_launch_sequence tab0 w_childFail).2.1 (by decide),
   (driver_single_launch_sequence tab0 w_childFail).2.2⟩

/-- Claim C5: when the template's placeholder set is exactly the fixed
key set and the write succeeds, rendering succeeds, no placeholder is
left unsubstituted, the rendered text is written, and it holds the
summary-table string verbatim as a substring. -/
theorem generate_readme_render_complete (w : World) (table : String) (toks : List Tok)
    (htm : w.templateToks = some toks)
    (hin : ∀ n ∈ placeholders toks, n ∈ substKeys)
    (hfull : ∀ n ∈ substKeys, n ∈ placeholders toks)
    (hw : w.writeOk = true) :
    ∃ filled, renderTemplate toks (substPairs w table) = Except.ok filled
      ∧ unsubstituted toks (substPairs w table) = []
      ∧ (generate_readme w table).snd = none
      ∧ Event.writeOut filled ∈ (generate_readme w table).fst
      ∧ ∃ p q, filled = p ++ table ++ q := by
  have hcov : ∀ n ∈ placeholders toks, ((substPairs w table).lookup n).isSome := by
    intro n hn
    rw [lookup_isSome_iff, substPairs_keys]
    exact hin n hn
  rcases renderTemplate_ok_of_covered toks _ hcov with ⟨filled, hf⟩
  have hsub : unsubstituted toks (substPairs w table) = [] := by
    rw [unsubstituted, List.filter_eq_nil_iff]
    intro n hn
    simp only [Option.isNone_iff_eq_none]
    exact Option.isSome_iff_ne_none.mp (hcov n hn)
  have hmem : "summary_table" ∈ placeholders toks :=
    hfull "summary_table" (by simp [substKeys])
  have htok : Tok.ph "summary_table" ∈ toks := by
    rw [placeholders] at hmem
    rcases List.mem_filterMap.mp hmem with ⟨t, ht, hft⟩
    cases t with
    | lit s => cases hft
    | ph m =>
        simp at hft
        subst hft
        exact ht
  rcases List.append_of_mem htok with ⟨l, r, hlr⟩
  subst hlr
  rcases renderTemplate_append_ok l _ _ filled hf with ⟨sa, sb, h1, h2, h3⟩
  rcases hr2 : renderTemplate r (substPairs w table) with e | sr
  · rw [renderTemplate, lookup_summary_table, hr2] at h2
    cases h2
  · rw [renderTemplate, lookup_summary_table, hr2] at h2
    injection h2 with h4
    refine ⟨filled, hf, hsub, ?_, ?_, sa, sr, ?_⟩
    · simp [generate_readme, htm, hf, hw]
    · simp [generate_readme, htm, hf, hw]
    · rw [h3, ← h4, String.append_assoc]

/-- Witness for C5: the concrete full-key template renders, is written,
and the written text holds the summary table verbatim. -/
theorem generate_readme_render_complete_w :
    ∃ filled, renderTemplate toks_full (substPairs w_render "| a |") = Except.ok filled
      ∧ unsubstituted toks_full (substPairs w_render "| a |") = []
      ∧ (generate_readme w_render "| a |").snd = none
      ∧ Event.writeOut filled ∈ (generate_readme w_render "| a |").fst
      ∧ ∃ p q, filled = p ++ "| a |" ++ q :=
  generate_readme_render_complete w_render "| a |" toks_full rfl (by decide) (by decide) rfl

/-- Claim C6: for any seven-column input the aggregator's printed row is
exactly the external formula applied to the four column-wise sums of the
parsed data rows, in the argument order (tpbase, tp, fn, fp) — the
script is a pure pass-through with no independent rate calculation,
whatever the external formula `pm` computes. -/
theorem aggregator_pass_through {α : Type} (pm : Int → Int → Int → Int → α)
    (file : List (List Int)) (h : (file.headD []).length = 7) :
    stratified_script pm file =
      Except.ok (pm (sumAt file.tail 3) (sumAt file.tail 4)
                    (sumAt file.tail 5) (sumAt file.tail 6)) := by
  cases file with
  | nil => simp at h
  | cons r rs =>
      simp only [List.headD_cons] at h
      simp [stratified_script, set_columns, read_csv_tab, metric_names, h,
            colSum, colOfName, sumAt, List.findIdx?_cons]

/-- Witness for C6: on a concrete seven-column file the script output is
the formula applied to the sums of the parsed data rows. -/
theorem aggregator_pass_through_w :
    stratified_script prod4 file6 =
      Except.ok (prod4 (sumAt file6.tail 3) (sumAt file6.tail 4)
                       (sumAt file6.tail 5) (sumAt file6.tail 6)) :=
  aggregator_pass_through prod4 file6 (by decide)

/-- Claim C7: when the template is absent but the CSV is present (and
the pipeline step was skipped or succeeded, so that control reaches the
later steps), the driver exits with status 1, and by then the summary
table has been produced: the summary step completed with the Markdown
table and its whole trace precedes the template error. -/
theorem driver_missing_template (tab : Csv → String) (w : World) (skip : Bool) (csv : Csv)
    (hcsv : w.csvData = some csv) (htm : w.templateToks = none)
    (hrun : skip = true ∨ w.childExit = 0) :
    (main_run tab w skip).snd = some 1
    ∧ (generate_summary_table tab w).snd = Except.ok (tab csv)
    ∧ (main_run tab w skip).fst =
        (if skip then [] else (run_snakemake_pipeline w).fst)
        ++ (generate_summary_table tab w).fst
        ++ [Event.msg "Error: README-eval-template.md not found."] := by
  cases skip with
  | true =>
      refine ⟨?_, ?_, ?_⟩ <;>
        simp [main_run, generate_summary_table, hcsv, generate_readme, htm]
  | false =>
      have hc : w.childExit = 0 := by
        rcases hrun with h | h
        · cases h
        · exact h
      refine ⟨?_, ?_, ?_⟩ <;>
        simp [main_run, run_snakemake_pipeline, hc, generate_summary_table, hcsv,
              generate_readme, htm]

/-- Witness for C7: with the template absent and the CSV present the
run exits 1 after the summary table was produced. -/
theorem driver_missing_template_w :
    (main_run tab0 w_noTemplate true).snd = some 1
    ∧ (generate_summary_table tab0 w_noTemplate).snd = Except.ok (tab0 csv0)
    ∧ (main_run tab0 w_noTemplate true).fst =
        (if true then [] else (run_snakemake_pipeline w_noTemplate).fst)
        ++ (generate_summary_table tab0 w_noTemplate).fst
        ++ [Event.msg "Error: README-eval-template.md not found."] :=
  driver_missing_template tab0 w_noTemplate true csv0 rfl rfl (Or.inl rfl)

/-- Claim C8: whatever the child's real-time emission order, the
forwarded events of `run_snakemake_pipeline` are exactly the child's
stdout lines in emission order followed by its stderr lines in emission
order — no stderr line is interleaved among the stdout lines. -/
theorem run_forwards_stdout_then_stderr (w : World) :
    forwarded (run_snakemake_pipeline w).fst
      = (stdoutLines w).map Event.fwdOut ++ (stderrLines w).map Event.fwdErr := by
  by_cases hc : w.childExit = 0 <;>
    simp [run_snakemake_pipeline, hc, forwarded, List.filter_append, List.filter_map,
          Function.comp_def, List.filter_true]

/-- Claim C9: when the parsed table does not have exactly seven
columns, the positional column-name assignment raises and the script
terminates with an error before computing any sum or printing any
output. -/
theorem aggregator_column_mismatch {α : Type} (pm : Int → Int → Int → Int → α)
    (file : List (List Int)) (h : (read_csv_tab file).cols.length ≠ 7) :
    stratified_script pm file =
      Except.error "Length mismatch: Expected axis has a different number of elements" := by
  have hne : ¬ (7 = (read_csv_tab file).cols.length) := fun hc => h hc.symm
  simp [stratified_script, set_columns, metric_names, if_neg hne]

/-- Witness for C9: a three-column input makes the script die in the
column assignment. -/
theorem aggregator_column_mismatch_w :
    stratified_script prod4 [[1, 2, 3]] =
      Except.error "Length mismatch: Expected axis has a different number of elements" :=
  aggregator_column_mismatch prod4 [[1, 2, 3]] (by decide)

/-- Claim C10: the four outcome-state labels of the plot renderer are
pairwise distinct, and every row of any dataset lands in at most one of
the four state panels. -/
theorem plot_states_distinct_disjoint :
    plotStates.Pairwise (fun a b => a ≠ b)
    ∧ ∀ (data : List PlotRow) (r : PlotRow), panelCount data r ≤ 1 := by
  constructor
  · decide
  · intro data r
    have hmono : ∀ s ∈ plotStates,
        (fun s => decide (r ∈ statePartition data s)) s = true →
        (fun s => s == r.state) s = true := by
      intro s _ hs
      have hmem : r ∈ statePartition data s := of_decide_eq_true hs
      have hst : r.state = s := by
        have h2 := List.mem_filter.mp hmem
        simpa using h2.2
      simp [hst]
    have h1 : panelCount data r ≤ plotStates.countP (fun s => s == r.state) :=
      List.countP_mono_left hmono
    have h2 : plotStates.countP (fun s => s == r.state) = plotStates.count r.state := rfl
    have h3 : plotStates.Nodup := by decide
    exact le_trans h1 (h2 ▸ List.nodup_iff_count_le_one.mp h3 r.state)

end GiabTruvari
